import Mathlib

/-!
Verification of the quote-generator logic core.

The definitions below are a shallow embedding of the logic in
src/src/App.jsx: the filtered-quote computation, the random draw,
the favorites toggle, the favorites-view toggle, and the pieces of
component state these handlers read and write. Quote records carry
the fields of the static dataset records. The random source is
modelled as a rational number r with 0 <= r < 1 supplied to the
handler, matching the use of the platform random generator.
-/

/-- A quote record: fields `quote`, `author`, `category` as in the
static dataset entries consumed by App.jsx. -/
structure Quote where
  quote : String
  author : String
  category : String
deriving DecidableEq, Repr

/-- The component state of App.jsx that the verified handlers touch:
`randomQuote`, `favorites`, `showFavorites`, `category`, `searchTerm`,
`toast` (message only), `error`, `loading`, `sidebarOpen`. -/
structure AppState where
  randomQuote : Option Quote
  favorites : List Quote
  showFavorites : Bool
  category : String
  searchTerm : String
  toast : Option String
  error : Option String
  loading : Bool
  sidebarOpen : Bool
deriving DecidableEq, Repr

/-- Per-character lowercasing, embedding the platform string
`toLowerCase` used at App.jsx lines 78-80. -/
def jsToLower (s : String) : String :=
  ⟨s.data.map Char.toLower⟩

/-- Substring test, embedding the platform string `includes` used at
App.jsx line 80. -/
def jsIncludes (s sub : String) : Bool :=
  decide (sub.data <:+: s.data)

/-- `filteredQuotes` (App.jsx lines 72-84): start from the dataset,
filter by category when the selected category is not "All", then
filter by a case-insensitive substring match on quote text or author
when the search term is nonempty. -/
def filteredQuotes (dataset : List Quote) (category searchTerm : String) :
    List Quote :=
  let quotes := dataset
  let quotes :=
    if category ≠ "All" then
      quotes.filter (fun q => q.category == category)
    else quotes
  if searchTerm ≠ "" then
    let lowerSearch := (jsToLower searchTerm)
    quotes.filter (fun q =>
      jsIncludes (jsToLower q.quote) lowerSearch ||
      jsIncludes (jsToLower q.author) lowerSearch)
  else quotes

/-- The filter written from the words of the spec: the subsequence of
the dataset whose members satisfy (category is "All" OR the record
category equals the selected one) AND (search term empty OR
case-insensitive substring match on text or author). Used to compare
against `filteredQuotes` from the source. -/
def filterSpec (dataset : List Quote) (category searchTerm : String) :
    List Quote :=
  dataset.filter (fun q =>
    (category == "All" || q.category == category) &&
    (searchTerm == "" ||
      jsIncludes (jsToLower q.quote) (jsToLower searchTerm) ||
      jsIncludes (jsToLower q.author) (jsToLower searchTerm)))

/-- The random index of App.jsx line 93: the floor of r times the
length of the filtered list. -/
def pickIndex (r : ℚ) (len : ℕ) : ℕ :=
  (⌊r * len⌋).toNat

/-- The random draw of the spec: the element at index floor(r * len),
or none on an empty list or an out-of-range index. -/
def pickRandom (l : List Quote) (r : ℚ) : Option Quote :=
  l.get? (pickIndex r l.length)

/-- `handleRandomize` (App.jsx lines 87-104) as a state transformer:
set loading, clear the error, leave the favorites view; then either
store the randomly drawn quote (nonempty filtered list) or set the
no-match error message (empty filtered list). The trailing timeout
that later clears `loading` is a separate event, `loadingTimeout`. -/
def handleRandomize (dataset : List Quote) (r : ℚ) (s : AppState) :
    AppState :=
  let fq := filteredQuotes dataset s.category s.searchTerm
  if fq.length > 0 then
    { s with loading := true, showFavorites := false, error := none,
             randomQuote := fq.get? (pickIndex r fq.length) }
  else
    { s with loading := true, showFavorites := false,
             error := some "No quotes match your criteria." }

/-- The delayed `setLoading(false)` of App.jsx line 102. -/
def loadingTimeout (s : AppState) : AppState :=
  { s with loading := false }

/-- `toggleFavorite` (App.jsx lines 107-115), favorites list only:
if some favorite shares the text, remove every favorite with that
text; otherwise append the quote. -/
def toggleFavorite (favorites : List Quote) (q : Quote) : List Quote :=
  if favorites.any (fun fav => fav.quote == q.quote) then
    favorites.filter (fun fav => fav.quote != q.quote)
  else
    favorites ++ [q]

/-- `toggleFavorite` as a state transformer: updates the favorites
list and the toast message, nothing else. -/
def toggleFavoriteState (s : AppState) (q : Quote) : AppState :=
  if s.favorites.any (fun fav => fav.quote == q.quote) then
    { s with favorites := s.favorites.filter (fun fav => fav.quote != q.quote),
             toast := some "Removed from favorites" }
  else
    { s with favorites := s.favorites ++ [q],
             toast := some "Added to favorites" }

/-- `toggleFavoritesView` (App.jsx lines 129-134): flip the favorites
view flag, clear the error, clear the displayed quote, close the
sidebar. -/
def toggleFavoritesView (s : AppState) : AppState :=
  { s with showFavorites := !s.showFavorites, error := none,
           randomQuote := none, sidebarOpen := false }

/-- The view selected by the render branch of App.jsx lines 304-364:
error message first, then the loading ring, then the favorites list,
then the shown quote, else the initial prompt. -/
inductive View where
  | errorView (msg : String)
  | loadingView
  | favoritesView
  | showing (q : Quote)
  | initialPrompt
deriving DecidableEq, Repr

/-- The branch order of the main AnimatePresence block. -/
def render (s : AppState) : View :=
  match s.error with
  | some msg => View.errorView msg
  | none =>
    if s.loading then View.loadingView
    else if s.showFavorites then View.favoritesView
    else
      match s.randomQuote with
      | some q => View.showing q
      | none => View.initialPrompt

/-- The initial component state (App.jsx lines 27-37), with the
favorites loaded from persistence passed in. -/
def initialState (favorites : List Quote) : AppState :=
  { randomQuote := none, favorites := favorites, showFavorites := false,
    category := "All", searchTerm := "", toast := none, error := none,
    loading := false, sidebarOpen := false }

/-- The dataset-validation effect run on mount (App.jsx lines 40-44):
an empty dataset sets a persistent error message. -/
def validateDataset (dataset : List Quote) (s : AppState) : AppState :=
  if dataset.length = 0 then
    { s with error := some "No quotes available in quotes.json." }
  else s

/-- The disabled attribute of the randomize button (App.jsx line
369): disabled exactly while loading. -/
def randomizeButtonDisabled (s : AppState) : Bool :=
  s.loading

/-- The randomize action fired from the button: a disabled button
fires nothing, so the click is a no-op while loading. -/
def buttonRandomize (dataset : List Quote) (r : ℚ) (s : AppState) :
    AppState :=
  if randomizeButtonDisabled s then s else handleRandomize dataset r s

/-- The randomize action fired from the R keyboard shortcut (App.jsx
lines 55-59): calls `handleRandomize` unconditionally. -/
def keyRandomize (dataset : List Quote) (r : ℚ) (s : AppState) :
    AppState :=
  handleRandomize dataset r s

/-! ## Supporting lemmas -/

/-- The random index stays below the length for r in [0,1) and a
positive length. -/
theorem pickIndex_lt (r : ℚ) (n : ℕ) (_h0 : 0 ≤ r) (h1 : r < 1)
    (hn : 0 < n) : pickIndex r n < n := by
  unfold pickIndex
  have h2 : ⌊r * (n : ℚ)⌋ < (n : ℤ) := by
    apply Int.floor_lt.mpr
    push_cast
    calc r * n < 1 * n := by
          exact mul_lt_mul_of_pos_right h1 (by exact_mod_cast hn)
    _ = n := one_mul _
  omega

/-- `filteredQuotes` coincides with the filter written from the
words of the spec. -/
theorem filteredQuotes_eq_filterSpec (dataset : List Quote)
    (category searchTerm : String) :
    filteredQuotes dataset category searchTerm =
      filterSpec dataset category searchTerm := by
  unfold filteredQuotes filterSpec
  by_cases hc : category = "All" <;> by_cases hs : searchTerm = ""
  · simp [hc, hs]
  · have hsb : (searchTerm == "") = false := by simp [hs]
    simp [hc, hs, hsb]
  · have hcb : (category == "All") = false := by simp [hc]
    simp [hc, hs, hcb]
  · have hcb : (category == "All") = false := by simp [hc]
    have hsb : (searchTerm == "") = false := by simp [hs]
    simp [hc, hs, hcb, hsb, List.filter_filter, Bool.and_comm]

/-! ## Claims -/

/-- C1: for every dataset and state with a non-empty filtered list,
and every random value r in [0,1), the draw at index floor(r * len)
is a member of the filtered list, and handleRandomize stores exactly
that member as the displayed quote. -/
theorem handleRandomize_picks_member (dataset : List Quote) (r : ℚ)
    (s : AppState) (h0 : 0 ≤ r) (h1 : r < 1)
    (hne : filteredQuotes dataset s.category s.searchTerm ≠ []) :
    ∃ q, pickRandom (filteredQuotes dataset s.category s.searchTerm) r = some q ∧
      q ∈ filteredQuotes dataset s.category s.searchTerm ∧
      (handleRandomize dataset r s).randomQuote = some q := by
  set fq := filteredQuotes dataset s.category s.searchTerm with hfq
  have hlen : 0 < fq.length := List.length_pos.mpr hne
  have hidx : pickIndex r fq.length < fq.length :=
    pickIndex_lt r _ h0 h1 hlen
  refine ⟨fq.get ⟨pickIndex r fq.length, hidx⟩, ?_, ?_, ?_⟩
  · unfold pickRandom
    exact List.get?_eq_get hidx
  · exact List.get_mem _ _ _
  · unfold handleRandomize
    rw [← hfq]
    simp only [if_pos hlen]
    exact List.get?_eq_get hidx

/-- Witness for C1 at a concrete dataset, state and random value. -/
theorem handleRandomize_picks_member_witness :
    (0 : ℚ) ≤ 1/2 ∧ (1/2 : ℚ) < 1 ∧
      filteredQuotes [⟨"A", "X", "wisdom"⟩] (initialState []).category
        (initialState []).searchTerm ≠ [] ∧
      (∃ q, pickRandom (filteredQuotes [⟨"A", "X", "wisdom"⟩]
            (initialState []).category (initialState []).searchTerm) (1/2) = some q ∧
        q ∈ filteredQuotes [⟨"A", "X", "wisdom"⟩] (initialState []).category
            (initialState []).searchTerm ∧
        (handleRandomize [⟨"A", "X", "wisdom"⟩] (1/2) (initialState [])).randomQuote
          = some q) :=
  ⟨by norm_num, by norm_num, by decide,
    handleRandomize_picks_member [⟨"A", "X", "wisdom"⟩] (1/2) (initialState [])
      (by norm_num) (by norm_num) (by decide)⟩

/-- C2: the filtered list equals exactly the subsequence of the
dataset satisfying (category is "All" or the category matches) and
(search term empty or case-insensitive substring match on text or
author), and it is a sublist of the dataset, so the original
relative order is preserved. -/
theorem filteredQuotes_spec (dataset : List Quote)
    (category searchTerm : String) :
    filteredQuotes dataset category searchTerm =
      filterSpec dataset category searchTerm ∧
    List.Sublist (filteredQuotes dataset category searchTerm) dataset := by
  refine ⟨filteredQuotes_eq_filterSpec dataset category searchTerm, ?_⟩
  rw [filteredQuotes_eq_filterSpec]
  unfold filterSpec
  exact List.filter_sublist _

/-- C3: when the filtered list is empty, randomize sets the no-match
error message, leaves the previously displayed quote untouched, and
the rendered view is the error message, not a shown quote. -/
theorem handleRandomize_empty_sets_error (dataset : List Quote) (r : ℚ)
    (s : AppState)
    (he : filteredQuotes dataset s.category s.searchTerm = []) :
    (handleRandomize dataset r s).error = some "No quotes match your criteria." ∧
    (handleRandomize dataset r s).randomQuote = s.randomQuote ∧
    render (handleRandomize dataset r s) =
      View.errorView "No quotes match your criteria." := by
  unfold handleRandomize
  rw [he]
  simp [render]

/-- Witness for C3: one quote of category motivation, selected
category wisdom. -/
theorem handleRandomize_empty_sets_error_witness :
    filteredQuotes [⟨"A", "X", "motivation"⟩]
        ({ initialState [] with category := "wisdom" } : AppState).category
        ({ initialState [] with category := "wisdom" } : AppState).searchTerm = [] ∧
    ((handleRandomize [⟨"A", "X", "motivation"⟩] 0
        { initialState [] with category := "wisdom" }).error =
      some "No quotes match your criteria." ∧
    (handleRandomize [⟨"A", "X", "motivation"⟩] 0
        { initialState [] with category := "wisdom" }).randomQuote =
      ({ initialState [] with category := "wisdom" } : AppState).randomQuote ∧
    render (handleRandomize [⟨"A", "X", "motivation"⟩] 0
        { initialState [] with category := "wisdom" }) =
      View.errorView "No quotes match your criteria.") :=
  ⟨by decide, handleRandomize_empty_sets_error _ 0 _ (by decide)⟩

/-- C7: toggling the favorites view clears the error and the
displayed quote in every state; exiting the favorites view in a
quiescent state therefore renders the initial prompt. -/
theorem toggleFavoritesView_clears (s : AppState) :
    (toggleFavoritesView s).error = none ∧
    (toggleFavoritesView s).randomQuote = none ∧
    (s.showFavorites = true → s.loading = false →
      render (toggleFavoritesView s) = View.initialPrompt) := by
  refine ⟨rfl, rfl, ?_⟩
  intro hf hl
  simp [toggleFavoritesView, render, hf, hl]

/-- Witness for C7 at a state currently in the favorites view. -/
theorem toggleFavoritesView_clears_witness :
    ({ initialState [] with showFavorites := true } : AppState).showFavorites = true ∧
    ({ initialState [] with showFavorites := true } : AppState).loading = false ∧
    render (toggleFavoritesView { initialState [] with showFavorites := true }) =
      View.initialPrompt :=
  ⟨rfl, rfl, (toggleFavoritesView_clears _).2.2 rfl rfl⟩

/-- C8: toggling a favorite changes only the favorites list and the
toast message; displayed quote, error, loading flag, favorites-view
flag, category and search term are untouched. -/
theorem toggleFavoriteState_frame (s : AppState) (q : Quote) :
    (toggleFavoriteState s q).randomQuote = s.randomQuote ∧
    (toggleFavoriteState s q).error = s.error ∧
    (toggleFavoriteState s q).loading = s.loading ∧
    (toggleFavoriteState s q).showFavorites = s.showFavorites ∧
    (toggleFavoriteState s q).category = s.category ∧
    (toggleFavoriteState s q).searchTerm = s.searchTerm ∧
    (toggleFavoriteState s q).favorites = toggleFavorite s.favorites q := by
  unfold toggleFavoriteState toggleFavorite
  split
  · simp_all
  · simp_all

/-- C10: when some favorite already carries the text of the toggled
quote, the toggle removes every favorite with that text. -/
theorem toggleFavorite_removes_all_matching (F : List Quote) (Q : Quote)
    (h : F.any (fun fav => fav.quote == Q.quote) = true) :
    (toggleFavorite F Q).all (fun fav => fav.quote != Q.quote) = true := by
  unfold toggleFavorite
  rw [if_pos h]
  simp [List.all_eq_true, List.mem_filter]

/-- Witness for C10: two stored favorites share the toggled text. -/
theorem toggleFavorite_removes_all_matching_witness :
    ([⟨"a", "X", "c"⟩, ⟨"a", "Y", "d"⟩] : List Quote).any
      (fun fav => fav.quote == (⟨"a", "Z", "e"⟩ : Quote).quote) = true ∧
    (toggleFavorite [⟨"a", "X", "c"⟩, ⟨"a", "Y", "d"⟩] ⟨"a", "Z", "e"⟩).all
      (fun fav => fav.quote != (⟨"a", "Z", "e"⟩ : Quote).quote) = true :=
  ⟨by decide, toggleFavorite_removes_all_matching _ _ (by decide)⟩

/-- C6: the no-duplicate-text invariant of the favorites list is
preserved by every toggle. -/
theorem toggleFavorite_preserves_nodup (F : List Quote) (Q : Quote)
    (h : (F.map Quote.quote).Nodup) :
    ((toggleFavorite F Q).map Quote.quote).Nodup := by
  unfold toggleFavorite
  split
  · exact h.sublist ((List.filter_sublist F).map Quote.quote)
  · rename_i hany
    rw [List.map_append, List.nodup_append]
    refine ⟨h, List.nodup_singleton _, ?_⟩
    intro a ha hb
    simp only [List.map_cons, List.map_nil, List.mem_singleton] at hb
    subst hb
    rcases List.mem_map.mp ha with ⟨fav, hf, hq⟩
    exact hany (List.any_eq_true.mpr ⟨fav, hf, by simp [hq]⟩)

/-- Witness for C6: a duplicate-free favorites list stays
duplicate-free after a toggle. -/
theorem toggleFavorite_preserves_nodup_witness :
    (([⟨"a", "X", "c"⟩] : List Quote).map Quote.quote).Nodup ∧
    ((toggleFavorite [⟨"a", "X", "c"⟩] ⟨"b", "Y", "d"⟩).map Quote.quote).Nodup :=
  ⟨by decide, toggleFavorite_preserves_nodup _ _ (by decide)⟩

/-- C5 counterexample: with two favorites stored and the first one
toggled twice, the list ends as the second favorite followed by the
first, not the original order. -/
theorem toggleFavorite_roundtrip_counterexample :
    ¬ (toggleFavorite
        (toggleFavorite [⟨"a", "X", "c"⟩, ⟨"b", "Y", "c"⟩] ⟨"a", "X", "c"⟩)
        ⟨"a", "X", "c"⟩ = [⟨"a", "X", "c"⟩, ⟨"b", "Y", "c"⟩]) := by
  decide

/-- C5 amended: when no stored favorite carries the text of Q,
toggling Q twice returns the favorites list to exactly its original
content. -/
theorem toggleFavorite_roundtrip (F : List Quote) (Q : Quote)
    (h : F.all (fun fav => fav.quote != Q.quote) = true) :
    toggleFavorite (toggleFavorite F Q) Q = F := by
  have hmem : ∀ fav ∈ F, fav.quote ≠ Q.quote := by
    intro fav hf
    simpa using List.all_eq_true.mp h fav hf
  have hany : ¬(F.any (fun fav => fav.quote == Q.quote) = true) := by
    simp only [List.any_eq_true, not_exists, not_and]
    intro fav hf
    simpa using hmem fav hf
  have step1 : toggleFavorite F Q = F ++ [Q] := by
    unfold toggleFavorite
    rw [if_neg hany]
  rw [step1]
  unfold toggleFavorite
  rw [if_pos (by simp)]
  rw [List.filter_append]
  have h1 : F.filter (fun fav => fav.quote != Q.quote) = F :=
    List.filter_eq_self.mpr (fun a ha => by simpa using hmem a ha)
  have h2 : ([Q].filter (fun fav => fav.quote != Q.quote)) = [] := by simp
  rw [h1, h2, List.append_nil]

/-- Witness for the amended C5. -/
theorem toggleFavorite_roundtrip_witness :
    ([⟨"b", "Y", "c"⟩] : List Quote).all
      (fun fav => fav.quote != (⟨"a", "X", "c"⟩ : Quote).quote) = true ∧
    toggleFavorite (toggleFavorite [⟨"b", "Y", "c"⟩] ⟨"a", "X", "c"⟩)
      ⟨"a", "X", "c"⟩ = [⟨"b", "Y", "c"⟩] :=
  ⟨by decide, toggleFavorite_roundtrip _ _ (by decide)⟩

/-- C4 counterexample: with the dataset empty at load time the error
message is set, but the randomize button is not disabled, since its
disabled attribute only tracks the loading flag. -/
theorem emptyDataset_button_enabled_counterexample :
    (validateDataset [] (initialState [])).error =
      some "No quotes available in quotes.json." ∧
    randomizeButtonDisabled (validateDataset [] (initialState [])) = false := by
  decide

/-- C4 amended: an empty dataset at load time immediately sets the
dataset-empty error message, but the randomize button stays enabled
(it is disabled only while loading), and pressing it keeps the app
in an error state while replacing the message with the no-match
error. -/
theorem validateDataset_empty (favorites : List Quote) (r : ℚ) :
    (validateDataset [] (initialState favorites)).error =
      some "No quotes available in quotes.json." ∧
    randomizeButtonDisabled (validateDataset [] (initialState favorites)) = false ∧
    (buttonRandomize [] r (validateDataset [] (initialState favorites))).error =
      some "No quotes match your criteria." := by
  refine ⟨rfl, rfl, ?_⟩
  simp [buttonRandomize, randomizeButtonDisabled, validateDataset, initialState,
        handleRandomize, filteredQuotes]

/-- C9 counterexample: pressing the R shortcut while a randomize is
in flight is not a no-op; here it transitions the state (the
no-match error appears while loading). -/
theorem keyRandomize_while_loading_counterexample :
    keyRandomize [⟨"A", "X", "motivation"⟩] 0
        { initialState [] with loading := true, category := "wisdom" } ≠
      { initialState [] with loading := true, category := "wisdom" } := by
  decide

/-- C9 amended: the button-triggered randomize is a no-op while a
randomize is in flight, because the button is disabled while
loading; the keyboard-triggered randomize runs regardless. -/
theorem buttonRandomize_noop_while_loading (dataset : List Quote) (r : ℚ)
    (s : AppState) (h : s.loading = true) :
    buttonRandomize dataset r s = s := by
  unfold buttonRandomize randomizeButtonDisabled
  rw [h]
  simp

/-- Witness for the amended C9. -/
theorem buttonRandomize_noop_while_loading_witness :
    ({ initialState [] with loading := true } : AppState).loading = true ∧
    buttonRandomize [] 0 { initialState [] with loading := true } =
      { initialState [] with loading := true } :=
  ⟨rfl, buttonRandomize_noop_while_loading [] 0 _ rfl⟩
